import Mathlib

/-!
Verification of the redis store adapter (`src/stores/redis.rs`) of the
`cached` crate, as a shallow embedding.

Modelling choices:
* Redis itself is modelled as a pure key-value store `RedisStore`
  (`String → Option String`); the claims under verification involve no
  elapsing of time, so TTLs are not tracked in the store state (the
  `expire` and `set_ex` commands record their key/seconds arguments in the
  command batch, which is what the batch-shape claims inspect).
* The r2d2 pool and the network round trip are external collaborators;
  connection checkout and pipeline transmission are modelled as always
  succeeding.  Error paths internal to the adapter (serialization,
  deserialization, connection-string resolution) are embedded faithfully.
* The generic parameters `K : Display` and `V : Serialize + DeserializeOwned`
  are embedded as: keys arrive already in their canonical string form, and
  serde_json (de)serialization of the envelope `CachedRedisValue<V>` is an
  abstract codec pair with error type `E` (serde_json::Error is opaque here).
* The Rust field/method `prefix` is embedded under the name `pfx`.
* `std::env::var` is embedded as an explicit environment argument
  `String → Except VarError String`.
-/

/-- Embeds `std::env::VarError` (payload of `NotUnicode` elided). -/
inductive VarError where
  | NotPresent
  | NotUnicode
deriving DecidableEq, Repr

/-- Embeds `const ENV_KEY: &str` from redis.rs line 16. -/
def ENV_KEY : String := "CACHED_REDIS_CONNECTION_STRING"

/-- Embeds `const PREFIX_NAMESPACE: &str` from redis.rs line 17. -/
def PREFIX_NAMESPACE : String := "cached-redis-store"

/-- Embeds `generate_prefix` (redis.rs lines 34-36):
`format!("{}:{}", PREFIX_NAMESPACE, prefix)`. -/
def generate_pfx (p : String) : String := PREFIX_NAMESPACE ++ ":" ++ p

/-- Embeds `RedisCacheBuildError` (redis.rs lines 21-32); the external
payloads of `Connection` and `Pool` are elided. -/
inductive RedisCacheBuildError where
  | Connection
  | Pool
  | MissingConnectionString (env_key : String) (error : VarError)
deriving DecidableEq, Repr

/-- Embeds `RedisCacheError` (redis.rs lines 146-159); `E` stands for the
opaque `serde_json::Error`, and the external payloads of the redis and
pool variants are elided. -/
inductive RedisCacheError (E : Type) where
  | RedisError
  | PoolError
  | CacheDeserializationError (cached_value : String) (error : E)
  | CacheSerializationError (error : E)
deriving DecidableEq, Repr

/-- Embeds the storage envelope `struct CachedRedisValue<V> { value: V }`
(redis.rs lines 161-164). -/
structure CachedRedisValue (V : Type) where
  value : V
deriving DecidableEq, Repr

/-- The serde_json codec for the envelope, abstracted: `to_string` embeds
`serde_json::to_string::<CachedRedisValue<V>>`, `from_str` embeds
`serde_json::from_str::<CachedRedisValue<V>>`. -/
structure Codec (V E : Type) where
  to_string : CachedRedisValue V → Except E String
  from_str : String → Except E (CachedRedisValue V)

/-- The remote store's visible state: namespaced key to stored string. -/
def RedisStore : Type := String → Option String

/-- Write a key (the content effect of redis SET / SETEX). -/
def RedisStore.setValue (st : RedisStore) (k v : String) : RedisStore :=
  fun q => if q = k then some v else st q

/-- Delete a key (the content effect of redis DEL). -/
def RedisStore.delKey (st : RedisStore) (k : String) : RedisStore :=
  fun q => if q = k then none else st q

/-- The redis commands the adapter issues (spec section 6: fetch-by-key,
set-with-expiry-seconds, delete-by-key, refresh-expiry-seconds). -/
inductive RedisCmd where
  | get (key : String)
  | set_ex (key : String) (val : String) (seconds : Nat)
  | expire (key : String) (seconds : Nat)
  | del (key : String)
deriving DecidableEq, Repr

/-- The key a command addresses. -/
def RedisCmd.cmdKey : RedisCmd → String
  | .get k => k
  | .set_ex k _ _ => k
  | .expire k _ => k
  | .del k => k

/-- Whether a command is the TTL-refresh (EXPIRE) command. -/
def RedisCmd.isExpire : RedisCmd → Bool
  | .expire _ _ => true
  | _ => false

/-- A pipelined command together with its `.ignore()` flag (`true` means the
command's result is dropped from the reply tuple). -/
def PipeCmd : Type := RedisCmd × Bool

/-- Run one command against the store: reply and successor state.  Replies
of write commands are only ever issued `.ignore()`d by this adapter, so
their concrete reply value is irrelevant and modelled as `none`. -/
def runCmd (st : RedisStore) : RedisCmd → Option String × RedisStore
  | .get k => (st k, st)
  | .set_ex k v _ => (none, RedisStore.setValue st k v)
  | .expire _ _ => (none, st)
  | .del k => (none, RedisStore.delKey st k)

/-- Execute a pipeline atomically: commands run in submission order; the
reply list collects the replies of the non-ignored commands. -/
def execPipe (st : RedisStore) : List PipeCmd → List (Option String) × RedisStore
  | [] => ([], st)
  | (c, ign) :: rest =>
      let r := runCmd st c
      let rs := execPipe r.2 rest
      (if ign then rs.1 else r.1 :: rs.1, rs.2)

/-- Embeds the cache adapter `RedisCache<K, V>` (redis.rs lines 115-123);
`pfx` embeds the field named `prefix` in the source, and the pool handle is
elided (connection acquisition is modelled as succeeding). -/
structure RedisCache where
  seconds : Nat
  refresh : Bool
  pfx : String
  connection_string : String
deriving DecidableEq, Repr

/-- Embeds `RedisCache::generate_key` (redis.rs lines 136-138):
`format!("{}{}", self.prefix, key)`; `key` is the `Display` form of `K`. -/
def RedisCache.generate_key (c : RedisCache) (key : String) : String :=
  c.pfx ++ key

/-- The batch built by `cache_get` (redis.rs lines 175-181):
`pipe.get(key)`, then, only when the refresh flag is set,
`pipe.expire(key, seconds).ignore()`. -/
def cache_get_pipe (c : RedisCache) (nk : String) : List PipeCmd :=
  (RedisCmd.get nk, false) ::
    (if c.refresh then [(RedisCmd.expire nk c.seconds, true)] else [])

/-- The batch built by `cache_set` once the value serialized to `s`
(redis.rs lines 204-211): `pipe.get(key)` then
`pipe.set_ex(key, s, seconds).ignore()`. -/
def cache_set_pipe (c : RedisCache) (nk s : String) : List PipeCmd :=
  [(RedisCmd.get nk, false), (RedisCmd.set_ex nk s c.seconds, true)]

/-- The batch built by `cache_remove` (redis.rs lines 233-234):
`pipe.get(key)` then `pipe.del(key).ignore()`. -/
def cache_remove_pipe (nk : String) : List PipeCmd :=
  [(RedisCmd.get nk, false), (RedisCmd.del nk, true)]

/-- The shared reply decoding (the `match res.0` block appearing in
`cache_get`, `cache_set` and `cache_remove`): absent is `Ok(None)`, a
present string is deserialized as the envelope and unwrapped, and a
deserialization failure carries the raw stored text and the cause. -/
def decodePrior {V E : Type} (codec : Codec V E) :
    Option String → Except (RedisCacheError E) (Option V)
  | none => .ok none
  | some s =>
      match codec.from_str s with
      | .error e => .error (.CacheDeserializationError s e)
      | .ok v => .ok (some v.value)

/-- Embeds `RedisCache::cache_get` (redis.rs lines 173-196): build the
batch, execute it in one round trip, decode the single non-ignored reply. -/
def cache_get {V E : Type} (c : RedisCache) (codec : Codec V E)
    (key : String) (st : RedisStore) :
    Except (RedisCacheError E) (Option V) × RedisStore :=
  let r := execPipe st (cache_get_pipe c (RedisCache.generate_key c key))
  (decodePrior codec (r.1.headD none), r.2)

/-- Embeds `RedisCache::cache_set` (redis.rs lines 198-226): serialize the
envelope first (a failure aborts the call before any batch is sent, leaving
the store untouched), then execute get-then-setex and decode the prior. -/
def cache_set {V E : Type} (c : RedisCache) (codec : Codec V E)
    (key : String) (v : V) (st : RedisStore) :
    Except (RedisCacheError E) (Option V) × RedisStore :=
  match codec.to_string ⟨v⟩ with
  | .error e => (.error (.CacheSerializationError e), st)
  | .ok s =>
      let r := execPipe st (cache_set_pipe c (RedisCache.generate_key c key) s)
      (decodePrior codec (r.1.headD none), r.2)

/-- Embeds `RedisCache::cache_remove` (redis.rs lines 228-248): execute
get-then-del in one batch and decode the prior value. -/
def cache_remove {V E : Type} (c : RedisCache) (codec : Codec V E)
    (key : String) (st : RedisStore) :
    Except (RedisCacheError E) (Option V) × RedisStore :=
  let r := execPipe st (cache_remove_pipe (RedisCache.generate_key c key))
  (decodePrior codec (r.1.headD none), r.2)

/-- Embeds `RedisCache::cache_lifespan` (redis.rs lines 250-252). -/
def cache_lifespan (c : RedisCache) : Option Nat :=
  some c.seconds

/-- Embeds `RedisCache::cache_set_lifespan` (redis.rs lines 254-258):
returns the old TTL and the updated adapter. -/
def cache_set_lifespan (c : RedisCache) (seconds : Nat) :
    Option Nat × RedisCache :=
  (some c.seconds, { c with seconds := seconds })

/-- Embeds `RedisCache::cache_set_refresh` (redis.rs lines 260-264). -/
def cache_set_refresh (c : RedisCache) (refresh : Bool) :
    Bool × RedisCache :=
  (c.refresh, { c with refresh := refresh })

/-- Embeds the builder `RedisCacheBuilder<K, V>` (redis.rs lines 7-14);
`pfx` embeds the field named `prefix` in the source. -/
structure RedisCacheBuilder where
  seconds : Nat
  refresh : Bool
  pfx : String
  connection_string : Option String
deriving DecidableEq, Repr

/-- Embeds `RedisCacheBuilder::new` (redis.rs lines 44-53). -/
def RedisCacheBuilder.new (p : String) (seconds : Nat) : RedisCacheBuilder :=
  { seconds := seconds
    refresh := false
    pfx := generate_pfx p
    connection_string := none }

/-- Embeds `RedisCacheBuilder::set_lifespan` (redis.rs lines 56-59). -/
def RedisCacheBuilder.set_lifespan (b : RedisCacheBuilder) (seconds : Nat) :
    RedisCacheBuilder :=
  { b with seconds := seconds }

/-- Embeds `RedisCacheBuilder::set_refresh` (redis.rs lines 62-65). -/
def RedisCacheBuilder.set_refresh (b : RedisCacheBuilder) (refresh : Bool) :
    RedisCacheBuilder :=
  { b with refresh := refresh }

/-- Embeds `RedisCacheBuilder::set_prefix` (redis.rs lines 68-71). -/
def RedisCacheBuilder.set_pfx (b : RedisCacheBuilder) (p : String) :
    RedisCacheBuilder :=
  { b with pfx := generate_pfx p }

/-- Embeds `RedisCacheBuilder::set_connection_string` (redis.rs lines 74-77). -/
def RedisCacheBuilder.set_connection_string (b : RedisCacheBuilder)
    (cs : String) : RedisCacheBuilder :=
  { b with connection_string := some cs }

/-- Embeds the method `RedisCacheBuilder::connection_string`
(redis.rs lines 80-90): the explicit string when configured, otherwise
`std::env::var(ENV_KEY)` with its failure wrapped into
`MissingConnectionString`; `env` is the ambient environment. -/
def RedisCacheBuilder.resolveConnectionString (b : RedisCacheBuilder)
    (env : String → Except VarError String) :
    Except RedisCacheBuildError String :=
  match b.connection_string with
  | some s => .ok s
  | none =>
      match env ENV_KEY with
      | .ok s => .ok s
      | .error e => .error (.MissingConnectionString ENV_KEY e)

/-- Embeds `RedisCacheBuilder::build` (redis.rs lines 99-109); pool
construction (`create_pool`) re-resolves the same connection string and its
external redis/r2d2 failures are modelled as not occurring. -/
def RedisCacheBuilder.build (b : RedisCacheBuilder)
    (env : String → Except VarError String) :
    Except RedisCacheBuildError RedisCache :=
  match RedisCacheBuilder.resolveConnectionString b env with
  | .error e => .error e
  | .ok cs =>
      .ok { seconds := b.seconds
            refresh := b.refresh
            pfx := b.pfx
            connection_string := cs }

/-- Embeds `AsyncRedisCacheBuilder<K, V>` (redis.rs lines 275-282). -/
structure AsyncRedisCacheBuilder where
  seconds : Nat
  refresh : Bool
  pfx : String
  connection_string : Option String
deriving DecidableEq, Repr

/-- Embeds `AsyncRedisCacheBuilder::new` (redis.rs lines 290-299). -/
def AsyncRedisCacheBuilder.new (p : String) (seconds : Nat) :
    AsyncRedisCacheBuilder :=
  { seconds := seconds
    refresh := false
    pfx := generate_pfx p
    connection_string := none }

/-- Embeds `AsyncRedisCache<K, V>` (redis.rs lines 363-371); the
multiplexed connection handle is elided. -/
structure AsyncRedisCache where
  seconds : Nat
  refresh : Bool
  pfx : String
  connection_string : String
deriving DecidableEq, Repr

/-- Embeds `AsyncRedisCacheBuilder::build` (redis.rs lines 347-358). -/
def AsyncRedisCacheBuilder.build (b : AsyncRedisCacheBuilder)
    (env : String → Except VarError String) :
    Except RedisCacheBuildError AsyncRedisCache :=
  match b.connection_string with
  | some s =>
      .ok { seconds := b.seconds, refresh := b.refresh, pfx := b.pfx
            connection_string := s }
  | none =>
      match env ENV_KEY with
      | .ok s =>
          .ok { seconds := b.seconds, refresh := b.refresh, pfx := b.pfx
                connection_string := s }
      | .error e => .error (.MissingConnectionString ENV_KEY e)

/-- The batch built by the async `cache_get` (redis.rs lines 408-411),
identical in shape to the blocking one. -/
def async_cache_get_pipe (c : AsyncRedisCache) (nk : String) : List PipeCmd :=
  (RedisCmd.get nk, false) ::
    (if c.refresh then [(RedisCmd.expire nk c.seconds, true)] else [])

/-- A concrete envelope codec over `V = Bool` (stand-in for serde_json on a
small payload), used to evaluate the generic theorems on closed inputs. -/
def boolCodec : Codec Bool Unit where
  to_string env := .ok (if env.value then "T" else "F")
  from_str s :=
    if s = "T" then .ok ⟨true⟩
    else if s = "F" then .ok ⟨false⟩
    else .error ()

/-- A codec whose serializer always fails, to exercise the
serialization-error path of `cache_set` on a closed input. -/
def failCodec : Codec Bool Unit where
  to_string _ := .error ()
  from_str _ := .error ()

/-- Concrete adapter used to evaluate the theorems on closed inputs. -/
def cacheW : RedisCache :=
  { seconds := 2, refresh := false, pfx := "cached-redis-store:p"
    connection_string := "redis://localhost" }

/-- The empty store. -/
def stEmpty : RedisStore := fun _ => none

/-- A store holding a well-formed encoded value under the namespaced key
`cacheW` produces for the caller key "k". -/
def stGood : RedisStore :=
  fun q => if q = "cached-redis-store:pk" then some "T" else none

/-- A store holding a string that does not decode as the envelope. -/
def stBad : RedisStore :=
  fun q => if q = "cached-redis-store:pk" then some "x" else none

/-- An environment carrying a connection string under every variable. -/
def envOk : String → Except VarError String :=
  fun _ => .ok "redis://localhost"

/-- An environment in which every variable is unset. -/
def envMissing : String → Except VarError String :=
  fun _ => .error .NotPresent

/-- Variant of `cacheW` with the refresh-on-read flag enabled. -/
def cacheWr : RedisCache := { cacheW with refresh := true }

/-- Concrete async adapter used to evaluate the theorems on closed inputs. -/
def asyncCacheW : AsyncRedisCache :=
  { seconds := 2, refresh := false, pfx := "cached-redis-store:p"
    connection_string := "redis://localhost" }

/-- A builder carrying an explicitly configured connection string. -/
def builderExplicit : RedisCacheBuilder :=
  RedisCacheBuilder.set_connection_string
    (RedisCacheBuilder.new "p" 2) "redis://explicit"

/-! ### Evaluation lemmas for the pipelined operations -/

/-- Executing the `cache_get` batch reads the namespaced key and, whether or
not the refresh command is included, leaves the store's contents unchanged. -/
theorem cache_get_eval {V E : Type} (c : RedisCache) (codec : Codec V E)
    (key : String) (st : RedisStore) :
    cache_get c codec key st =
      (decodePrior codec (st (RedisCache.generate_key c key)), st) := by
  cases hr : c.refresh <;>
    simp [cache_get, cache_get_pipe, execPipe, runCmd, hr]

/-- When serialization succeeds, `cache_set` reads the prior string and
writes the encoded value under the namespaced key. -/
theorem cache_set_eval_ok {V E : Type} (c : RedisCache) (codec : Codec V E)
    (key : String) (v : V) (st : RedisStore) (s : String)
    (h : codec.to_string ⟨v⟩ = .ok s) :
    cache_set c codec key v st =
      (decodePrior codec (st (RedisCache.generate_key c key)),
       RedisStore.setValue st (RedisCache.generate_key c key) s) := by
  simp [cache_set, h, cache_set_pipe, execPipe, runCmd]

/-- When serialization fails, `cache_set` aborts before sending any batch
and the store is returned untouched. -/
theorem cache_set_eval_err {V E : Type} (c : RedisCache) (codec : Codec V E)
    (key : String) (v : V) (st : RedisStore) (e : E)
    (h : codec.to_string ⟨v⟩ = .error e) :
    cache_set c codec key v st =
      (.error (.CacheSerializationError e), st) := by
  simp [cache_set, h]

/-- Running `cache_remove` reads the prior string and deletes the namespaced key. -/
theorem cache_remove_eval {V E : Type} (c : RedisCache) (codec : Codec V E)
    (key : String) (st : RedisStore) :
    cache_remove c codec key st =
      (decodePrior codec (st (RedisCache.generate_key c key)),
       RedisStore.delKey st (RedisCache.generate_key c key)) := by
  simp [cache_remove, cache_remove_pipe, execPipe, runCmd]

/-- Writing a key makes it readable. -/
theorem setValue_same (st : RedisStore) (k v : String) :
    RedisStore.setValue st k v k = some v := by
  simp [RedisStore.setValue]

/-- Deleting a key makes it absent. -/
theorem delKey_same (st : RedisStore) (k : String) :
    RedisStore.delKey st k k = none := by
  simp [RedisStore.delKey]

/-- A successful `build` copies seconds, refresh flag and key prefix from
the builder into the adapter. -/
theorem build_ok_fields (b : RedisCacheBuilder)
    (env : String → Except VarError String) (c : RedisCache)
    (hb : RedisCacheBuilder.build b env = .ok c) :
    c.seconds = b.seconds ∧ c.refresh = b.refresh ∧ c.pfx = b.pfx := by
  unfold RedisCacheBuilder.build at hb
  cases h : RedisCacheBuilder.resolveConnectionString b env with
  | error e => rw [h] at hb; cases hb
  | ok cs =>
      rw [h] at hb
      cases hb
      exact ⟨rfl, rfl, rfl⟩

/-- The function `generate_pfx` produces the fixed namespace token, a colon, then the
caller-supplied suffix. -/
theorem generate_pfx_eq (p : String) :
    generate_pfx p = "cached-redis-store:" ++ p := rfl

/-! ### Claims -/

/-- C1: for every key and value, `cache_set(k, v)` followed immediately by
`cache_get(&k)` (no expiry elapsing, no interleaved writer) returns
`Ok(Some(v))`: the value survives the envelope encoding, under the
assumption that the envelope serialization round-trips at `v`. -/
theorem C1_set_then_get_roundtrip {V E : Type} (c : RedisCache)
    (codec : Codec V E) (k : String) (v : V) (st : RedisStore) (s : String)
    (hser : codec.to_string ⟨v⟩ = .ok s)
    (hdeser : codec.from_str s = .ok ⟨v⟩) :
    (cache_get c codec k (cache_set c codec k v st).2).1 = .ok (some v) := by
  rw [cache_set_eval_ok c codec k v st s hser, cache_get_eval]
  simp [setValue_same, decodePrior, hdeser]

/-- C1 witness at `V = Bool`, key "k", value `true`, on the empty store. -/
theorem C1_witness :
    boolCodec.to_string ⟨true⟩ = .ok "T"
  ∧ boolCodec.from_str "T" = .ok ⟨true⟩
  ∧ (cache_get cacheW boolCodec "k"
        (cache_set cacheW boolCodec "k" true stEmpty).2).1 = .ok (some true) :=
  ⟨rfl, rfl,
   C1_set_then_get_roundtrip cacheW boolCodec "k" true stEmpty "T" rfl rfl⟩

/-- C2: `cache_get` returns `Ok(None)` when the store holds no entry for
the namespaced key; decodes the envelope into `Ok(Some(value))` when an
entry is present; and turns a decoding failure into a
`CacheDeserializationError` carrying the raw stored text and the cause,
never into `Ok(None)`. -/
theorem C2_get_contract {V E : Type} (c : RedisCache) (codec : Codec V E)
    (k : String) (st : RedisStore) :
    (st (RedisCache.generate_key c k) = none →
        (cache_get c codec k st).1 = .ok none)
  ∧ (∀ s env, st (RedisCache.generate_key c k) = some s →
        codec.from_str s = .ok env →
        (cache_get c codec k st).1 = .ok (some env.value))
  ∧ (∀ s e, st (RedisCache.generate_key c k) = some s →
        codec.from_str s = .error e →
        (cache_get c codec k st).1 =
          .error (.CacheDeserializationError s e)) := by
  refine ⟨fun h => ?_, fun s env h hd => ?_, fun s e h hd => ?_⟩ <;>
    rw [cache_get_eval] <;> simp [h, decodePrior]
  · rw [hd]
  · rw [hd]

/-- C2 witness: the three cases evaluated on concrete stores. -/
theorem C2_witness :
    (cache_get cacheW boolCodec "k" stEmpty).1 = .ok none
  ∧ (cache_get cacheW boolCodec "k" stGood).1 = .ok (some true)
  ∧ (cache_get cacheW boolCodec "k" stBad).1 =
      .error (.CacheDeserializationError "x" ()) :=
  ⟨(C2_get_contract cacheW boolCodec "k" stEmpty).1 rfl,
   (C2_get_contract cacheW boolCodec "k" stGood).2.1 "T" ⟨true⟩ rfl rfl,
   (C2_get_contract cacheW boolCodec "k" stBad).2.2 "x" () rfl rfl⟩

/-- C3: if serializing the enveloped value fails, `cache_set` returns a
`CacheSerializationError` and the store is unchanged (no batch is sent);
on success it returns the decoded prior value when one existed, `Ok(None)`
when the key was fresh. -/
theorem C3_set_contract {V E : Type} (c : RedisCache) (codec : Codec V E)
    (k : String) (v : V) (st : RedisStore) :
    (∀ e, codec.to_string ⟨v⟩ = .error e →
        cache_set c codec k v st =
          (.error (.CacheSerializationError e), st))
  ∧ (∀ s, codec.to_string ⟨v⟩ = .ok s →
        (st (RedisCache.generate_key c k) = none →
            (cache_set c codec k v st).1 = .ok none)
      ∧ (∀ old env, st (RedisCache.generate_key c k) = some old →
            codec.from_str old = .ok env →
            (cache_set c codec k v st).1 = .ok (some env.value))) := by
  constructor
  · intro e he
    exact cache_set_eval_err c codec k v st e he
  · intro s hs
    constructor
    · intro h
      rw [cache_set_eval_ok c codec k v st s hs]
      simp [h, decodePrior]
    · intro old env h hd
      rw [cache_set_eval_ok c codec k v st s hs]
      simp [h, decodePrior]
      rw [hd]

/-- C3 witness: the serialization-failure path, the fresh-key path and the
previously-set-key path, on concrete inputs. -/
theorem C3_witness :
    cache_set cacheW failCodec "k" true stEmpty =
      (.error (.CacheSerializationError ()), stEmpty)
  ∧ (cache_set cacheW boolCodec "k" true stEmpty).1 = .ok none
  ∧ (cache_set cacheW boolCodec "k" false stGood).1 = .ok (some true) :=
  ⟨(C3_set_contract cacheW failCodec "k" true stEmpty).1 () rfl,
   ((C3_set_contract cacheW boolCodec "k" true stEmpty).2 "T" rfl).1 rfl,
   ((C3_set_contract cacheW boolCodec "k" false stGood).2 "F" rfl).2
      "T" ⟨true⟩ rfl rfl⟩

/-- C4: `cache_remove` issues a get-then-delete batch (delete result
discarded), returns the decoded prior value when present and `Ok(None)`
otherwise, and afterwards `cache_get` on the same key returns `Ok(None)`. -/
theorem C4_remove_contract {V E : Type} (c : RedisCache) (codec : Codec V E)
    (k : String) (st : RedisStore) :
    cache_remove_pipe (RedisCache.generate_key c k) =
      [(RedisCmd.get (RedisCache.generate_key c k), false),
       (RedisCmd.del (RedisCache.generate_key c k), true)]
  ∧ (st (RedisCache.generate_key c k) = none →
        (cache_remove c codec k st).1 = .ok none)
  ∧ (∀ s env, st (RedisCache.generate_key c k) = some s →
        codec.from_str s = .ok env →
        (cache_remove c codec k st).1 = .ok (some env.value))
  ∧ (cache_get c codec k (cache_remove c codec k st).2).1 = .ok none := by
  refine ⟨rfl, fun h => ?_, fun s env h hd => ?_, ?_⟩
  · rw [cache_remove_eval]
    simp [h, decodePrior]
  · rw [cache_remove_eval]
    simp [h, decodePrior]
    rw [hd]
  · rw [cache_remove_eval, cache_get_eval]
    simp [delKey_same, decodePrior]

/-- C4 witness: removal of a present key returns it, removal of an absent
key returns `None`, and a get after removal misses. -/
theorem C4_witness :
    (cache_remove cacheW boolCodec "k" stGood).1 = .ok (some true)
  ∧ (cache_remove cacheW boolCodec "k" stEmpty).1 = .ok none
  ∧ (cache_get cacheW boolCodec "k"
        (cache_remove cacheW boolCodec "k" stGood).2).1 = .ok none :=
  ⟨(C4_remove_contract cacheW boolCodec "k" stGood).2.2.1 "T" ⟨true⟩ rfl rfl,
   (C4_remove_contract cacheW boolCodec "k" stEmpty).2.1 rfl,
   (C4_remove_contract cacheW boolCodec "k" stGood).2.2.2⟩

/-- C5: the batch built by `cache_get` contains the EXPIRE command exactly
when the refresh flag is set, and when set the command is part of the batch
unconditionally (the batch builder consults no store state, so no existence
check precedes it). -/
theorem C5_get_batch_expire_iff (c : RedisCache) (nk : String) :
    ((∃ t, (RedisCmd.expire nk t, true) ∈ cache_get_pipe c nk) ↔
        c.refresh = true)
  ∧ (c.refresh = true →
        cache_get_pipe c nk =
          [(RedisCmd.get nk, false), (RedisCmd.expire nk c.seconds, true)]) := by
  cases hr : c.refresh <;> simp [cache_get_pipe, hr]

/-- C5 witness: with the refresh flag set, the EXPIRE command is in the
batch and the batch is exactly get-then-expire. -/
theorem C5_witness :
    (RedisCmd.expire "nk" 2, true) ∈ cache_get_pipe cacheWr "nk"
  ∧ cache_get_pipe cacheWr "nk" =
      [(RedisCmd.get "nk", false), (RedisCmd.expire "nk" 2, true)] := by
  have h := (C5_get_batch_expire_iff cacheWr "nk").2 rfl
  exact ⟨by rw [h]; simp [cacheWr, cacheW], h⟩

/-- C6: `cache_set_lifespan n` returns `Some` of the previous TTL and
produces an adapter differing only in the seconds field (refresh flag, key
prefix and connection string untouched; the operation involves no store,
so no command re-arms already-stored keys), and `cache_lifespan` is always
`Some` of the current TTL. -/
theorem C6_set_lifespan_frame (c : RedisCache) (n : Nat) :
    cache_set_lifespan c n =
      (some c.seconds,
        { seconds := n, refresh := c.refresh, pfx := c.pfx
          connection_string := c.connection_string })
  ∧ cache_lifespan c = some c.seconds
  ∧ (cache_lifespan c).isSome = true :=
  ⟨rfl, rfl, rfl⟩

/-- C7: for a cache built from a caller-supplied suffix `p`, the namespaced
key for a key string `ks` is exactly "cached-redis-store:" ++ p ++ ks (no
separator between the caller suffix and the key string), and every command
in the get/set/remove batches addresses exactly that key. -/
theorem C7_namespaced_key (p : String) (n : Nat)
    (env : String → Except VarError String) (c : RedisCache) (ks : String)
    (hb : RedisCacheBuilder.build (RedisCacheBuilder.new p n) env = .ok c) :
    RedisCache.generate_key c ks = "cached-redis-store:" ++ p ++ ks
  ∧ (∀ pc ∈ cache_get_pipe c (RedisCache.generate_key c ks),
        RedisCmd.cmdKey pc.1 = "cached-redis-store:" ++ p ++ ks)
  ∧ (∀ s, ∀ pc ∈ cache_set_pipe c (RedisCache.generate_key c ks) s,
        RedisCmd.cmdKey pc.1 = "cached-redis-store:" ++ p ++ ks)
  ∧ (∀ pc ∈ cache_remove_pipe (RedisCache.generate_key c ks),
        RedisCmd.cmdKey pc.1 = "cached-redis-store:" ++ p ++ ks) := by
  obtain ⟨-, -, hpfx⟩ := build_ok_fields _ env c hb
  have hkey : RedisCache.generate_key c ks =
      "cached-redis-store:" ++ p ++ ks := by
    simp only [RedisCache.generate_key, hpfx, RedisCacheBuilder.new]
    rw [generate_pfx_eq]
  refine ⟨hkey, fun pc hpc => ?_, fun s pc hpc => ?_, fun pc hpc => ?_⟩
  · cases hr : c.refresh <;> simp [cache_get_pipe, hr] at hpc
    · rw [hpc]
      exact hkey
    · rcases hpc with h | h <;> (rw [h]; exact hkey)
  · simp [cache_set_pipe] at hpc
    rcases hpc with h | h <;> (rw [h]; exact hkey)
  · simp [cache_remove_pipe] at hpc
    rcases hpc with h | h <;> (rw [h]; exact hkey)

/-- C7 witness: the namespaced key of a concretely built cache. -/
theorem C7_witness :
    RedisCache.generate_key cacheW "k" = "cached-redis-store:" ++ "p" ++ "k" :=
  (C7_namespaced_key "p" 2 envOk cacheW "k" rfl).1

/-- C8: at build time an explicitly configured connection string is used;
otherwise the environment variable CACHED_REDIS_CONNECTION_STRING is read;
its absence or invalidity fails the build with `MissingConnectionString`
naming that variable and carrying the underlying cause. -/
theorem C8_connection_resolution (b : RedisCacheBuilder)
    (env : String → Except VarError String) :
    (∀ s, b.connection_string = some s →
        RedisCacheBuilder.build b env = .ok
          { seconds := b.seconds, refresh := b.refresh, pfx := b.pfx
            connection_string := s })
  ∧ (∀ s, b.connection_string = none → env ENV_KEY = .ok s →
        RedisCacheBuilder.build b env = .ok
          { seconds := b.seconds, refresh := b.refresh, pfx := b.pfx
            connection_string := s })
  ∧ (∀ e, b.connection_string = none → env ENV_KEY = .error e →
        RedisCacheBuilder.build b env =
            .error (.MissingConnectionString ENV_KEY e)
          ∧ ENV_KEY = "CACHED_REDIS_CONNECTION_STRING") := by
  refine ⟨fun s h => ?_, fun s h he => ?_, fun e h he => ⟨?_, rfl⟩⟩
  · simp [RedisCacheBuilder.build, RedisCacheBuilder.resolveConnectionString, h]
  · simp [RedisCacheBuilder.build, RedisCacheBuilder.resolveConnectionString,
      h, he]
  · simp [RedisCacheBuilder.build, RedisCacheBuilder.resolveConnectionString,
      h, he]

/-- C8 witness: the three resolution paths on concrete builders and
environments. -/
theorem C8_witness :
    RedisCacheBuilder.build builderExplicit envMissing = .ok
      { seconds := 2, refresh := false, pfx := "cached-redis-store:p"
        connection_string := "redis://explicit" }
  ∧ RedisCacheBuilder.build (RedisCacheBuilder.new "p" 2) envOk = .ok
      { seconds := 2, refresh := false, pfx := "cached-redis-store:p"
        connection_string := "redis://localhost" }
  ∧ (RedisCacheBuilder.build (RedisCacheBuilder.new "p" 2) envMissing =
        .error (.MissingConnectionString ENV_KEY .NotPresent)
      ∧ ENV_KEY = "CACHED_REDIS_CONNECTION_STRING") :=
  ⟨(C8_connection_resolution builderExplicit envMissing).1
      "redis://explicit" rfl,
   (C8_connection_resolution (RedisCacheBuilder.new "p" 2) envOk).2.1
      "redis://localhost" rfl rfl,
   (C8_connection_resolution (RedisCacheBuilder.new "p" 2) envMissing).2.2
      .NotPresent rfl rfl⟩

/-- C9 counterexample: nothing validates positivity of the TTL — a builder
constructed with 0 seconds builds an adapter whose TTL is 0, and
`cache_set_lifespan 0` produces a 0 TTL, contradicting the claim that no
reachable adapter state has TTL zero. -/
theorem C9_counterexample :
    (RedisCacheBuilder.new "p" 0).seconds = 0
  ∧ RedisCacheBuilder.build (RedisCacheBuilder.new "p" 0) envOk =
      .ok { seconds := 0, refresh := false, pfx := "cached-redis-store:p"
            connection_string := "redis://localhost" }
  ∧ ((cache_set_lifespan cacheW 0).2).seconds = 0 :=
  ⟨rfl, rfl, rfl⟩

/-- C9 amended: the TTL-seconds attribute is a non-negative integer taken
verbatim from the caller; builder construction, `set_lifespan`, `build`
and `cache_set_lifespan` propagate it without any positivity validation,
so an adapter whose TTL is zero is reachable. -/
theorem C9_amended_ttl_unvalidated (p : String) (n m : Nat)
    (b : RedisCacheBuilder) (env : String → Except VarError String)
    (c : RedisCache) (hb : RedisCacheBuilder.build b env = .ok c) :
    (RedisCacheBuilder.new p n).seconds = n
  ∧ (RedisCacheBuilder.set_lifespan b n).seconds = n
  ∧ c.seconds = b.seconds
  ∧ ((cache_set_lifespan c m).2).seconds = m :=
  ⟨rfl, rfl, (build_ok_fields b env c hb).1, rfl⟩

/-- C9 amended witness: TTL 0 propagates unvalidated through a concretely
built adapter. -/
theorem C9_amended_witness :
    (RedisCacheBuilder.new "p" 0).seconds = 0
  ∧ (RedisCacheBuilder.set_lifespan (RedisCacheBuilder.new "p" 2) 0).seconds = 0
  ∧ cacheW.seconds = (RedisCacheBuilder.new "p" 2).seconds
  ∧ ((cache_set_lifespan cacheW 0).2).seconds = 0 :=
  C9_amended_ttl_unvalidated "p" 0 0 (RedisCacheBuilder.new "p" 2) envOk
    cacheW rfl

/-- C10: a fresh `RedisCacheBuilder::new` or `AsyncRedisCacheBuilder::new`
has the refresh-on-read flag false, so an adapter built without
`set_refresh` issues no EXPIRE command in its `cache_get` batch. -/
theorem C10_default_no_refresh (p : String) (n : Nat)
    (env : String → Except VarError String) :
    (RedisCacheBuilder.new p n).refresh = false
  ∧ (AsyncRedisCacheBuilder.new p n).refresh = false
  ∧ (∀ c, RedisCacheBuilder.build (RedisCacheBuilder.new p n) env = .ok c →
        ∀ nk, (cache_get_pipe c nk).all
          (fun pc => !(RedisCmd.isExpire pc.1)) = true)
  ∧ (∀ c, AsyncRedisCacheBuilder.build
        (AsyncRedisCacheBuilder.new p n) env = .ok c →
        ∀ nk, (async_cache_get_pipe c nk).all
          (fun pc => !(RedisCmd.isExpire pc.1)) = true) := by
  refine ⟨rfl, rfl, fun c hb nk => ?_, fun c hb nk => ?_⟩
  · obtain ⟨-, hr, -⟩ := build_ok_fields _ env c hb
    simp [cache_get_pipe, hr, RedisCacheBuilder.new, RedisCmd.isExpire]
  · have hr : c.refresh = false := by
      unfold AsyncRedisCacheBuilder.build at hb
      simp only [AsyncRedisCacheBuilder.new] at hb
      cases he : env ENV_KEY with
      | ok s => rw [he] at hb; cases hb; rfl
      | error e => rw [he] at hb; cases hb
    simp [async_cache_get_pipe, hr, RedisCmd.isExpire]

/-- C10 witness: concretely built blocking and async adapters whose get
batches contain no EXPIRE. -/
theorem C10_witness :
    (RedisCacheBuilder.new "p" 2).refresh = false
  ∧ (AsyncRedisCacheBuilder.new "p" 2).refresh = false
  ∧ (cache_get_pipe cacheW "nk").all
      (fun pc => !(RedisCmd.isExpire pc.1)) = true
  ∧ (async_cache_get_pipe asyncCacheW "nk").all
      (fun pc => !(RedisCmd.isExpire pc.1)) = true := by
  obtain ⟨h1, h2, h3, h4⟩ := C10_default_no_refresh "p" 2 envOk
  exact ⟨h1, h2, h3 cacheW rfl "nk", h4 asyncCacheW rfl "nk"⟩
